import Mathlib

/-
  Verification of the scheme-switching serialization example
  (src/pke/examples/scheme-switching-serial.cpp).

  The program is shallowly embedded: each role (serverSetupAndWrite,
  clientProcess, serverVerification, main) becomes a Lean function over an
  explicit file store (the transport boundary), an environment saying which
  writes succeed, and an abstract "engine" supplying the black-box key material
  produced by the crypto library.  Every serialization / deserialization /
  registry operation is logged into an event trace, and `std::exit(1)` is
  modelled by an `Except Diag` error carrying the exit code and the exact
  diagnostic string printed by the program.
-/

namespace SchemeSwitchSerial

/-- Exit diagnostics: `exitCode` models the argument of `std::exit`,
`msg` the text written to `std::cerr` right before it. -/
structure Diag where
  exitCode : Nat
  msg : String
deriving DecidableEq

/-- Values carried by plaintexts: packed vectors of (approximate) numbers,
modelled exactly over ℚ. -/
abbrev Vec := List ℚ

/-- A decoded plaintext: a packed numeric vector with a settable logical
length (SetLength truncates `value`). -/
structure PlaintextM where
  value : Vec
deriving DecidableEq

/-- A ciphertext: the vector it decrypts to together with its slot count. -/
structure CiphertextM where
  payload : Vec
  slots : Nat
deriving DecidableEq

/-- A CKKS key pair; the key material itself is a black box, modelled by
abstract numeric handles. -/
structure KeyPairM where
  publicKey : Nat
  secretKey : Nat
deriving DecidableEq

/-- Security levels (only the constructors this program can mention). -/
inductive SecurityLevel
  | HEStd_NotSet
  | HEStd_128_classic
  | HEStd_192_classic
deriving DecidableEq

/-- BinFHE parameter presets. -/
inductive BINFHE_PARAMSET
  | TOY
  | MEDIUM
  | STD128
deriving DecidableEq

/-- CKKS scaling techniques. -/
inductive ScalingTechnique
  | FLEXIBLEAUTO
  | FIXEDMANUAL
  | FIXEDAUTO
deriving DecidableEq

/-- Enableable scheme features, as passed to `CryptoContext::Enable`. -/
inductive PKESchemeFeature
  | PKE
  | KEYSWITCH
  | LEVELEDSHE
  | ADVANCEDSHE
  | FHE
  | SCHEMESWITCH
deriving DecidableEq

/-- The `CCParams<CryptoContextCKKSRNS>` fields set by `serverSetupAndWrite`. -/
structure CCParams where
  multiplicativeDepth : Nat
  securityLevel : SecurityLevel
  ringDim : Nat
  batchSize : Nat
  scalingModSize : Nat
  firstModSize : Nat
  scalingTechnique : ScalingTechnique
deriving DecidableEq

/-- One BinFHE bootstrapping key bundle: `{BSkey, KSkey}` as stored in the
`BTKeyMap`, with black-box handles for the key material. -/
structure BTKeyM where
  BSkey : Nat
  KSkey : Nat
deriving DecidableEq

/-- The part of a BinFHE context captured by its serialization: parameters
only; bootstrapping keys are serialized separately. -/
structure BinCCSerial where
  paramset : BINFHE_PARAMSET
  arbFunc : Bool
  logQ : Nat
  beta : Nat
deriving DecidableEq

/-- A live BinFHE context: serialized parameters plus the default
bootstrapping bundle and the per-base bootstrapping key map. -/
structure BinCCState where
  paramset : BINFHE_PARAMSET
  arbFunc : Bool
  logQ : Nat
  beta : Nat
  refreshKey : Nat
  switchKey : Nat
  btKeyMap : List (Nat × BTKeyM)
deriving DecidableEq

/-- The part of a `CryptoContext` captured by its serialization: parameters
and enabled features; evaluation keys, the BinFHE context and the
FHEW-to-CKKS switching key are NOT restored by context deserialization. -/
structure CCSerial where
  params : CCParams
  enabled : List PKESchemeFeature
deriving DecidableEq

/-- A live `CryptoContext<DCRTPoly>`: serializable core plus the attached
key registries, the BinFHE context and the FHEW-to-CKKS switching key. -/
structure CCState where
  params : CCParams
  enabled : List PKESchemeFeature
  evalMultKeys : Option Nat
  autoKeys : Option Nat
  binCC : Option BinCCState
  swkFC : Option CiphertextM
deriving DecidableEq

/-- A serialized binary blob: a self-describing encoding, so a blob states
which artifact kind it holds.  `secretKeyB` exists in the format but is
never produced by this program (claim C4). -/
inductive Blob
  | ccB (s : CCSerial)
  | pubKeyB (k : Nat)
  | secretKeyB (k : Nat)
  | multKeysB (k : Nat)
  | autoKeysB (k : Nat)
  | ctB (c : CiphertextM)
  | binCCB (s : BinCCSerial)
  | refreshKeyB (k : Nat)
  | switchKeyB (k : Nat)
deriving DecidableEq

/-- Observable steps of a role, logged in program order. -/
inductive Event
  | serializeFile (loc : String) (b : Blob)
  | deserializeFile (loc : String)
  | clearEvalMultKeys
  | clearEvalSumKeys
  | clearEvalAutomorphismKeys
  | releaseAllContexts
  | encryptEv (pk : Nat)
  | decryptEv (sk : Nat)
  | btKeyMapLoadSingle (baseG : Nat)
  | btKeyLoad
  | setBinCC
  | setSwkFC
  | precompute (pLWE : Nat) (signShift : Nat) (scaleSign : ℚ) (flag : Bool)
  | evalMin
deriving DecidableEq

/-- The transport boundary: a directory of named binary blobs. -/
abbrev FileStore := List (String × Blob)

/-- Look a blob up by its location. -/
def FileStore.get (st : FileStore) (loc : String) : Option Blob :=
  (st.find? (fun p => p.1 == loc)).map (fun p => p.2)

/-- Write a blob at a location. -/
def FileStore.put (st : FileStore) (loc : String) (b : Blob) : FileStore :=
  (loc, b) :: st

def Blob.asCC : Blob → Option CCSerial
  | .ccB s => some s
  | _ => none

def Blob.asPubKey : Blob → Option Nat
  | .pubKeyB k => some k
  | _ => none

def Blob.asMultKeys : Blob → Option Nat
  | .multKeysB k => some k
  | _ => none

def Blob.asAutoKeys : Blob → Option Nat
  | .autoKeysB k => some k
  | _ => none

def Blob.asCt : Blob → Option CiphertextM
  | .ctB c => some c
  | _ => none

def Blob.asBinCC : Blob → Option BinCCSerial
  | .binCCB s => some s
  | _ => none

def Blob.asRefreshKey : Blob → Option Nat
  | .refreshKeyB k => some k
  | _ => none

def Blob.asSwitchKey : Blob → Option Nat
  | .switchKeyB k => some k
  | _ => none

def Event.isSerializeB : Event → Bool
  | .serializeFile _ _ => true
  | _ => false

def Event.isDeserializeB : Event → Bool
  | .deserializeFile _ => true
  | _ => false

def Event.isSecretSerializeB : Event → Bool
  | .serializeFile _ (.secretKeyB _) => true
  | _ => false

def Event.isEncryptB : Event → Bool
  | .encryptEv _ => true
  | _ => false

def Event.isBTLoadB : Event → Bool
  | .btKeyMapLoadSingle _ => true
  | .btKeyLoad => true
  | _ => false

def Event.isComputeB : Event → Bool
  | .precompute _ _ _ _ => true
  | .evalMin => true
  | _ => false

/-- The location of a serialization event, if it is one. -/
def Event.serLoc : Event → Option String
  | .serializeFile loc _ => some loc
  | _ => none

/- ===== File locations (verbatim from the program) ===== -/

def DATAFOLDER : String := "demoData"
def ccLocation : String := "/cryptocontext.txt"
def pubKeyLocation : String := "/key_pub.txt"
def multKeyLocation : String := "/key_mult.txt"
def rotKeyLocation : String := "/key_rot.txt"
def binccLocation : String := "/bincryptocontext.txt"
def btRkLocation : String := "/bt_rk.txt"
def btSwkLocation : String := "/bt_swk.txt"
def FHEWtoCKKSKeyLocation : String := "/key_swkFC.txt"
def cipherLocation : String := "/ciphertext.txt"
def cipherArgminLocation : String := "/ciphertextArgmin.txt"

/-- Per-base bootstrapping refresh-key blob location,
`DATAFOLDER + "/" + std::to_string(index) + "refreshKey.txt"`. -/
def btMapRkLocation (index : Nat) : String :=
  DATAFOLDER ++ "/" ++ toString index ++ "refreshKey.txt"

/-- Per-base bootstrapping switching-key blob location,
`DATAFOLDER + "/" + std::to_string(index) + "ksKey.txt"`. -/
def btMapKsLocation (index : Nat) : String :=
  DATAFOLDER ++ "/" ++ toString index ++ "ksKey.txt"

/- ===== The abstract crypto engine ===== -/

/-- The black-box key material the crypto library produces during server-side
setup.  The example treats all of it as black-box handles. -/
structure Engine where
  publicKey : Nat
  secretKey : Nat
  privateKeyFHEW : Nat
  evalMultKeys : Nat
  autoKeys : Nat
  binRefreshKey : Nat
  binSwitchKey : Nat
  btKeyMap : List (Nat × BTKeyM)
  beta : Nat
  swkFC : CiphertextM
deriving DecidableEq

/-- Modelled from the spec: `MakeCKKSPackedPlaintext` encodes a numeric
vector into a plaintext whose slot vector is the input padded with zeros up
to the batch size (§3 Plaintext, §6 encode). -/
def makeCKKSPackedPlaintext (batchSize : Nat) (v : Vec) : PlaintextM :=
  ⟨v ++ List.replicate (batchSize - v.length) 0⟩

/-- Modelled from the spec: encryption packs the plaintext vector into a
ciphertext with that many slots; §8 round-trip says a packed-then-unpacked
key decrypts exactly what the original would, so the payload is carried
through exactly. -/
def encryptM (_pk : Nat) (p : PlaintextM) : CiphertextM :=
  ⟨p.value, p.value.length⟩

/-- Modelled from the spec: decryption inverts encryption (§6
`decrypt(secretKey, Ciphertext) → Plaintext`). -/
def decryptM (_sk : Nat) (c : CiphertextM) : PlaintextM :=
  ⟨c.payload⟩

/-- Modelled from the spec: `SetLength` truncates the decoded plaintext to
the logical length (§3: "explicit settable logical length distinct from the
underlying slot count"). -/
def setLengthM (n : Nat) (p : PlaintextM) : PlaintextM :=
  ⟨p.value.take n⟩

/-- Index of the first minimum of `v` (auxiliary scan). -/
def idxOfMinAux : List ℚ → ℚ → Nat → Nat → Nat
  | [], _, best, _ => best
  | x :: xs, bv, best, i =>
    if x < bv then idxOfMinAux xs x i (i + 1) else idxOfMinAux xs bv best (i + 1)

/-- Index of the first minimum of a nonempty vector (0 for the empty one). -/
def idxOfMin : List ℚ → Nat
  | [] => 0
  | x :: xs => idxOfMinAux xs x 0 1

/-- One-hot vector marking the first minimum of `v`. -/
def oneHotOfMin (v : Vec) : Vec :=
  (List.range v.length).map (fun i => if i = idxOfMin v then 1 else 0)

/-- Smallest entry of `v` (0 for the empty vector). -/
def minOfVec : List ℚ → ℚ
  | [] => 0
  | x :: xs => xs.foldl min x

/-- Modelled from the spec: `EvalMinSchemeSwitching` over the full slot
range returns a sequence of result ciphertexts; per §4.3 step 8 and §9
("select index 1, per observed usage") index 1 decrypts to the one-hot
indicator of the minimum. -/
def evalMinSchemeSwitching (c : CiphertextM) (_pk : Nat)
    (_numValues _numSlots _pLWEsel _signSel : Nat) : List CiphertextM :=
  [⟨[minOfVec c.payload], c.slots⟩, ⟨oneHotOfMin c.payload, c.slots⟩]

/- ===== Server setup (lines 129-186) ===== -/

/-- The sample data vector `{1.0, 2.0, 3.0, 4.0}`. -/
def serverVec : Vec := [1, 2, 3, 4]

/-- Everything `serverSetupAndWrite` has in hand when serialization starts. -/
structure ServerArtifacts where
  cc : CCState
  kp : KeyPairM
  serverP : PlaintextM
  serverC : CiphertextM
  binCC : BinCCState
  swkFC : CiphertextM
  tr : List Event
deriving DecidableEq

/-- `GenCryptoContext(parameters)`: a fresh context carrying the parameters,
with nothing enabled and no keys attached. -/
def genCryptoContext (p : CCParams) : CCState :=
  ⟨p, [], none, none, none, none⟩

/-- `CryptoContext::Enable(f)`. -/
def enableFeature (cc : CCState) (f : PKESchemeFeature) : CCState :=
  { cc with enabled := cc.enabled ++ [f] }

/-- `EvalSchemeSwitchingSetup(sl, slBin, arbFunc, logQ_LWE, false, batchSize,
batchSize, true, oneHot, false, 27, 0, 0, 1, 0)`: allocates and parameterizes
the BinFHE context (keys not yet populated) and returns the FHEW private key
handle used only by the subsequent keygen call. -/
def evalSchemeSwitchingSetup (_sl : SecurityLevel) (slBin : BINFHE_PARAMSET)
    (arbFunc : Bool) (logQ_LWE : Nat) (_b1 : Bool) (_bs _numValues : Nat)
    (_b2 _oneHot _b3 : Bool) (_n27 _na _nb _nc _nd : Nat) (eng : Engine) :
    BinCCState × Nat :=
  (⟨slBin, arbFunc, logQ_LWE, eng.beta, 0, 0, []⟩, eng.privateKeyFHEW)

/-- `EvalSchemeSwitchingKeyGen(serverKP, privateKeyFHEW)`: populates the
FHEW-to-CKKS switching key, the evaluation key registries and the BinFHE
context's bootstrapping keys (default bundle and per-base map). -/
def evalSchemeSwitchingKeyGen (cc : CCState) (_kp : KeyPairM) (_privKey : Nat)
    (eng : Engine) : CCState :=
  { cc with
    evalMultKeys := some eng.evalMultKeys
    autoKeys := some eng.autoKeys
    swkFC := some eng.swkFC
    binCC := cc.binCC.map (fun b =>
      { b with
        refreshKey := eng.binRefreshKey
        switchKey := eng.binSwitchKey
        btKeyMap := eng.btKeyMap }) }

/-- Lines 134-186 of the program: context construction, feature enabling,
key generation, scheme-switching setup/keygen, sample-vector encoding and
encryption. -/
def serverContextSetup (ringDim batchSize multDepth scaleModSize firstModSize
    logQ_LWE : Nat) (oneHot : Bool) (eng : Engine) : ServerArtifacts :=
  let sl := SecurityLevel.HEStd_NotSet
  let slBin := BINFHE_PARAMSET.TOY
  let arbFunc := false
  let parameters : CCParams :=
    ⟨multDepth, sl, ringDim, batchSize, scaleModSize, firstModSize,
     ScalingTechnique.FLEXIBLEAUTO⟩
  let serverCC := genCryptoContext parameters
  let serverCC := enableFeature serverCC .PKE
  let serverCC := enableFeature serverCC .KEYSWITCH
  let serverCC := enableFeature serverCC .LEVELEDSHE
  let serverCC := enableFeature serverCC .ADVANCEDSHE
  let serverCC := enableFeature serverCC .FHE
  let serverCC := enableFeature serverCC .SCHEMESWITCH
  let serverKP : KeyPairM := ⟨eng.publicKey, eng.secretKey⟩
  let setupRes := evalSchemeSwitchingSetup sl slBin arbFunc logQ_LWE false
    batchSize batchSize true oneHot false 27 0 0 1 0 eng
  let serverCC := { serverCC with binCC := some setupRes.1 }
  let privateKeyFHEW := setupRes.2
  let serverCC := evalSchemeSwitchingKeyGen serverCC serverKP privateKeyFHEW eng
  let serverBinCC := serverCC.binCC.getD ⟨.TOY, false, 0, 0, 0, 0, []⟩
  let swkFHEWtoCKKS := serverCC.swkFC.getD ⟨[], 0⟩
  let serverP := makeCKKSPackedPlaintext serverCC.params.batchSize serverVec
  let serverC := encryptM serverKP.publicKey serverP
  ⟨serverCC, serverKP, serverP, serverC, serverBinCC, swkFHEWtoCKKS,
   [Event.encryptEv serverKP.publicKey]⟩

/- ===== Server serialization (lines 204-292) ===== -/

/-- The `BTKeyMap` serialization loop (lines 275-292): one blob pair per
decomposition base, each write checked. -/
def serializeBTMap (w : String → Bool) (tr : List Event) (st : FileStore) :
    List (Nat × BTKeyM) → List Event × Except Diag FileStore
  | [] => (tr, Except.ok st)
  | (index, thekey) :: rest =>
    let loc1 := btMapRkLocation index
    let tr1 := tr ++ [Event.serializeFile loc1 (.refreshKeyB thekey.BSkey)]
    if w loc1 then
      let st1 := st.put loc1 (.refreshKeyB thekey.BSkey)
      let loc2 := btMapKsLocation index
      let tr2 := tr1 ++ [Event.serializeFile loc2 (.switchKeyB thekey.KSkey)]
      if w loc2 then
        serializeBTMap w tr2 (st1.put loc2 (.switchKeyB thekey.KSkey)) rest
      else (tr2, Except.error ⟨1, "Error serializing the switching key"⟩)
    else (tr1, Except.error ⟨1, "Error serializing the refreshing key"⟩)

/-- One pack instruction of the server: a location, the blob written
there, and the diagnostic printed if the write fails. -/
structure WriteItem where
  loc : String
  blob : Blob
  msg : String
deriving DecidableEq

/-- A sequence of checked `Serial::SerializeToFile` calls (or checked
stream writes): each call is logged; on the first failure the program
prints the item's diagnostic and calls `std::exit(1)`. -/
def writeSeq (w : String → Bool) :
    List WriteItem → List Event → FileStore → List Event × Except Diag FileStore
  | [], tr, st => (tr, Except.ok st)
  | it :: rest, tr, st =>
    let tr1 := tr ++ [Event.serializeFile it.loc it.blob]
    if w it.loc then writeSeq w rest tr1 (st.put it.loc it.blob)
    else (tr1, Except.error ⟨1, it.msg⟩)

/-- The nine fixed pack calls of lines 204-273, in program order, with the
program's exact diagnostics. -/
def serverWriteItems (cc : CCState) (kp : KeyPairM) (serverC : CiphertextM)
    (binCC : BinCCState) (swk : CiphertextM) : List WriteItem :=
  [⟨DATAFOLDER ++ ccLocation, .ccB ⟨cc.params, cc.enabled⟩,
    "Error writing serialization of the crypto context to cryptocontext.txt"⟩,
   ⟨DATAFOLDER ++ pubKeyLocation, .pubKeyB kp.publicKey,
    "Exception writing public key to pubkey.txt"⟩,
   ⟨DATAFOLDER ++ multKeyLocation, .multKeysB (cc.evalMultKeys.getD 0),
    "Error serializing EvalMult keys"⟩,
   ⟨DATAFOLDER ++ rotKeyLocation, .autoKeysB (cc.autoKeys.getD 0),
    "Error serializing Rotation keys"⟩,
   ⟨DATAFOLDER ++ FHEWtoCKKSKeyLocation, .ctB swk,
    " Error writing switching key"⟩,
   ⟨DATAFOLDER ++ cipherLocation, .ctB serverC,
    " Error writing ciphertext"⟩,
   ⟨DATAFOLDER ++ binccLocation,
    .binCCB ⟨binCC.paramset, binCC.arbFunc, binCC.logQ, binCC.beta⟩,
    "Error serializing the binfhe cryptocontext"⟩,
   ⟨DATAFOLDER ++ btRkLocation, .refreshKeyB binCC.refreshKey,
    "Error serializing the refreshing key"⟩,
   ⟨DATAFOLDER ++ btSwkLocation, .switchKeyB binCC.switchKey,
    "Error serializing the switching key"⟩]

/-- Lines 204-292: the server's serialization sequence, in program order:
the nine fixed packs followed by the per-base `BTKeyMap` loop. -/
def serverSerialize (cc : CCState) (kp : KeyPairM) (serverC : CiphertextM)
    (binCC : BinCCState) (swk : CiphertextM) (w : String → Bool)
    (tr : List Event) : List Event × Except Diag FileStore :=
  match writeSeq w (serverWriteItems cc kp serverC binCC swk) tr [] with
  | (tr2, Except.error e) => (tr2, Except.error e)
  | (tr2, Except.ok st) => serializeBTMap w tr2 st binCC.btKeyMap

/-- The whole of `serverSetupAndWrite` (lines 129-295): setup followed by
the serialization sequence; returns the produced file store, the retained
context and key pair, and `vec.size()`. -/
def serverSetupAndWrite (ringDim batchSize multDepth scaleModSize firstModSize
    logQ_LWE : Nat) (oneHot : Bool) (eng : Engine) (w : String → Bool) :
    List Event × Except Diag (FileStore × CCState × KeyPairM × Nat) :=
  let a := serverContextSetup ringDim batchSize multDepth scaleModSize
    firstModSize logQ_LWE oneHot eng
  let r := serverSerialize a.cc a.kp a.serverC a.binCC a.swkFC w a.tr
  (r.1, r.2.map (fun st => (st, a.cc, a.kp, serverVec.length)))

/- ===== Client (lines 304-435) ===== -/

/-- One checked `Serial::DeserializeFromFile`: the attempt is logged; a
missing or wrongly-typed blob makes the call return false, upon which the
program prints `msg` and exits 1. -/
def readOne {α : Type} (store : FileStore) (tr : List Event) (loc : String)
    (ext : Blob → Option α) (msg : String) : List Event × Except Diag α :=
  match (store.get loc).bind ext with
  | none => (tr ++ [Event.deserializeFile loc], Except.error ⟨1, msg⟩)
  | some a => (tr ++ [Event.deserializeFile loc], Except.ok a)

/-- One stream-based deserialization (`ifstream` open check followed by a
multi-key deserialize): a missing blob fails the open check with `openMsg`;
a wrongly-typed blob fails the deserialize with `deserMsg`. -/
def readStream {α : Type} (store : FileStore) (tr : List Event) (loc : String)
    (ext : Blob → Option α) (openMsg deserMsg : String) :
    List Event × Except Diag α :=
  match store.get loc with
  | none => (tr ++ [Event.deserializeFile loc], Except.error ⟨1, openMsg⟩)
  | some b =>
    match ext b with
    | none => (tr ++ [Event.deserializeFile loc], Except.error ⟨1, deserMsg⟩)
    | some a => (tr ++ [Event.deserializeFile loc], Except.ok a)

/-- What `clientProcess` ends up holding: the reconstructed context, the
BinFHE context attached to it, and the result ciphertext it serialized. -/
structure ClientOut where
  cc : CCState
  binCC : BinCCState
  result : CiphertextM
deriving DecidableEq

/-- The per-base bootstrapping-key loop (lines 369-387).  Note it reuses
(and so overwrites) the caller's `refreshKey` / `ksKey` variables and
returns their final values alongside the updated BinFHE context;
`BTKeyMapLoadSingleElement` inserts the pair under the base. -/
def clientLoadBTMap (store : FileStore) (tr : List Event) (binCC : BinCCState)
    (refreshKey ksKey : Nat) :
    List Nat → List Event × Except Diag (BinCCState × Nat × Nat)
  | [] => (tr, Except.ok (binCC, refreshKey, ksKey))
  | b :: rest =>
    match (store.get (btMapRkLocation b)).bind Blob.asRefreshKey with
    | none => (tr ++ [Event.deserializeFile (btMapRkLocation b)],
               Except.error ⟨1, "Could not deserialize the refresh key"⟩)
    | some rk =>
      match (store.get (btMapKsLocation b)).bind Blob.asSwitchKey with
      | none => (tr ++ [Event.deserializeFile (btMapRkLocation b),
                        Event.deserializeFile (btMapKsLocation b)],
                 Except.error ⟨1, "Could not deserialize the switching key"⟩)
      | some kk =>
        clientLoadBTMap store
          (tr ++ [Event.deserializeFile (btMapRkLocation b),
                  Event.deserializeFile (btMapKsLocation b),
                  Event.btKeyMapLoadSingle b])
          ⟨binCC.paramset, binCC.arbFunc, binCC.logQ, binCC.beta,
           binCC.refreshKey, binCC.switchKey, binCC.btKeyMap ++ [(b, ⟨rk, kk⟩)]⟩
          rk kk rest

/-- `clientProcess(modulus_LWE)` (lines 304-435): registry clearing, the
checked deserializations in program order, context reconstruction, the
comparison precompute, the argmin evaluation, and the final (unchecked!)
serialization of the result ciphertext. -/
def clientProcess (store : FileStore) (modulus_LWE : Nat) (w : String → Bool) :
    List Event × Except Diag (FileStore × ClientOut) :=
  match readOne store
      [Event.clearEvalMultKeys, Event.clearEvalSumKeys,
       Event.clearEvalAutomorphismKeys, Event.releaseAllContexts]
      (DATAFOLDER ++ ccLocation) Blob.asCC
      ("I cannot read serialized data from: " ++ DATAFOLDER ++ ccLocation) with
  | (tr, Except.error e) => (tr, Except.error e)
  | (tr, Except.ok ccSer) =>
  match readOne store tr (DATAFOLDER ++ pubKeyLocation) Blob.asPubKey
      ("I cannot read serialized data from: " ++ DATAFOLDER ++ pubKeyLocation) with
  | (tr, Except.error e) => (tr, Except.error e)
  | (tr, Except.ok clientPublicKey) =>
  match readStream store tr (DATAFOLDER ++ multKeyLocation) Blob.asMultKeys
      ("Cannot read serialization from " ++ DATAFOLDER ++ multKeyLocation)
      "Could not deserialize eval mult key file" with
  | (tr, Except.error e) => (tr, Except.error e)
  | (tr, Except.ok mk) =>
  -- NOTE: the program's open-failure diagnostic for the rotation keys
  -- really prints multKeyLocation (line 337 of the source).
  match readStream store tr (DATAFOLDER ++ rotKeyLocation) Blob.asAutoKeys
      ("Cannot read serialization from " ++ DATAFOLDER ++ multKeyLocation)
      "Could not deserialize eval rot key file" with
  | (tr, Except.error e) => (tr, Except.error e)
  | (tr, Except.ok rotk) =>
  match readOne store tr (DATAFOLDER ++ binccLocation) Blob.asBinCC
      "Could not deserialize the binfhe cryptocontext" with
  | (tr, Except.error e) => (tr, Except.error e)
  | (tr, Except.ok binSer) =>
  match readOne store tr (DATAFOLDER ++ btRkLocation) Blob.asRefreshKey
      "Could not deserialize the refresh key" with
  | (tr, Except.error e) => (tr, Except.error e)
  | (tr, Except.ok refreshKey) =>
  match readOne store tr (DATAFOLDER ++ btSwkLocation) Blob.asSwitchKey
      "Could not deserialize the switching key" with
  | (tr, Except.error e) => (tr, Except.error e)
  | (tr, Except.ok ksKey) =>
  match clientLoadBTMap store tr
      ⟨binSer.paramset, binSer.arbFunc, binSer.logQ, binSer.beta, 0, 0, []⟩
      refreshKey ksKey [1 <<< 18] with
  | (tr, Except.error e) => (tr, Except.error e)
  | (tr, Except.ok (binCC2, refreshKey2, ksKey2)) =>
  -- `BTKeyLoad({refreshKey, ksKey})` then `SetBinCCForSchemeSwitch`: the
  -- default bundle gets the CURRENT values of the two variables, i.e. the
  -- ones left behind by the per-base loop above.
  match readOne store (tr ++ [Event.btKeyLoad, Event.setBinCC])
      (DATAFOLDER ++ FHEWtoCKKSKeyLocation) Blob.asCt
      ("Cannot read serialization from " ++ DATAFOLDER ++ FHEWtoCKKSKeyLocation) with
  | (tr, Except.error e) => (tr, Except.error e)
  | (tr, Except.ok swkFHEWtoCKKS) =>
  match readOne store (tr ++ [Event.setSwkFC])
      (DATAFOLDER ++ cipherLocation) Blob.asCt
      ("Cannot read serialization from " ++ DATAFOLDER ++ cipherLocation) with
  | (tr, Except.error e) => (tr, Except.error e)
  | (tr, Except.ok clientC) =>
    let scaleSign : ℚ := 512
    let binCC3 : BinCCState :=
      ⟨binCC2.paramset, binCC2.arbFunc, binCC2.logQ, binCC2.beta,
       refreshKey2, ksKey2, binCC2.btKeyMap⟩
    let clientCC : CCState :=
      ⟨ccSer.params, ccSer.enabled, some mk, some rotk, some binCC3,
       some swkFHEWtoCKKS⟩
    let pLWE := modulus_LWE / (2 * binCC3.beta)
    let clientCiphertextArgmin :=
      evalMinSchemeSwitching clientC clientPublicKey clientC.slots
        clientC.slots 0 1
    let result := clientCiphertextArgmin.getD 1 ⟨[], 0⟩
    -- Final serialization of the result ciphertext: its return value is
    -- NOT checked by the program (line 432), so failure does not abort.
    let store2 := if w (DATAFOLDER ++ cipherArgminLocation)
      then store.put (DATAFOLDER ++ cipherArgminLocation) (.ctB result)
      else store
    (tr ++ [Event.precompute pLWE 0 scaleSign false, Event.evalMin,
            Event.serializeFile (DATAFOLDER ++ cipherArgminLocation) (.ctB result)],
     Except.ok (store2, ⟨clientCC, binCC3, result⟩))

/- ===== Server verification (lines 101-115) ===== -/

/-- `serverVerification(cc, kp, vectorSize)`: deserializes the result
ciphertext WITHOUT checking the return value (line 104; a failed read
leaves the ciphertext default-constructed), decrypts with the retained
secret key, truncates to `vectorSize` and returns the plaintext.  It can
never abort: its result is always `Except.ok`. -/
def serverVerification (store : FileStore) (_cc : CCState) (kp : KeyPairM)
    (vectorSize : Nat) : List Event × Except Diag PlaintextM :=
  let serverCiphertextFromClient_Argmin :=
    ((store.get (DATAFOLDER ++ cipherArgminLocation)).bind Blob.asCt).getD ⟨[], 0⟩
  let tr := [Event.deserializeFile (DATAFOLDER ++ cipherArgminLocation)]
  let serverPlaintextFromClient_Argmin :=
    decryptM kp.secretKey serverCiphertextFromClient_Argmin
  let tr := tr ++ [Event.decryptEv kp.secretKey]
  (tr, Except.ok (setLengthM vectorSize serverPlaintextFromClient_Argmin))

/- ===== main (lines 437-476) ===== -/

/-- `main`: the fixed demo parameters and the three stages in sequence;
a stage's `std::exit(1)` aborts the whole run. -/
def mainRun (eng : Engine) (w : String → Bool) :
    List Event × Except Diag PlaintextM :=
  let ringDim := 64
  let batchSize := 4
  let multDepth := 13 + Nat.log2 batchSize
  let logQ_ccLWE := 25
  let oneHot := true
  let scaleModSize := 50
  let firstModSize := 60
  match serverSetupAndWrite ringDim batchSize multDepth scaleModSize
    firstModSize logQ_ccLWE oneHot eng w with
  | (tr1, Except.error e) => (tr1, Except.error e)
  | (tr1, Except.ok (store, cc, kp, vectorSize)) =>
    match clientProcess store (1 <<< logQ_ccLWE) w with
    | (tr2, Except.error e) => (tr1 ++ tr2, Except.error e)
    | (tr2, Except.ok (store2, _cOut)) =>
      let v := serverVerification store2 cc kp vectorSize
      (tr1 ++ tr2 ++ v.1, v.2)

/- ===== Concrete runs used as witnesses and counterexamples ===== -/

/-- A concrete engine matching the real run: the scheme-switching setup of
this example populates the bootstrapping key map at decomposition base
`2^18` (which is why the client's fixed list works). -/
def eng0 : Engine :=
  ⟨1, 2, 3, 4, 5, 6, 7, [(1 <<< 18, ⟨8, 9⟩)], 128, ⟨[], 0⟩⟩

/-- An engine whose bootstrapping key map holds the single base 8 instead
of `2^18`. -/
def eng8 : Engine :=
  ⟨1, 2, 3, 4, 5, 6, 7, [(8, ⟨8, 9⟩)], 128, ⟨[], 0⟩⟩

/-- An engine whose default bootstrapping bundle (10, 11) differs from the
map entry for base `2^18` (20, 21). -/
def eng5 : Engine :=
  ⟨1, 2, 3, 4, 5, 10, 11, [(1 <<< 18, ⟨20, 21⟩)], 128, ⟨[], 0⟩⟩

/-- The file store produced by a fully successful server setup run with the
demo parameters of `main`. -/
def serverStoreOf (eng : Engine) : FileStore :=
  (((serverSetupAndWrite 64 4 15 50 60 25 true eng (fun _ => true)).2.toOption).map
    (fun p => p.1)).getD []

/-- A throwaway context for exercising `serverVerification` directly. -/
def cc0 : CCState :=
  ⟨⟨0, .HEStd_NotSet, 0, 0, 0, 0, .FLEXIBLEAUTO⟩, [], none, none, none, none⟩

/-- A throwaway key pair for exercising `serverVerification` directly. -/
def kp0 : KeyPairM := ⟨1, 2⟩

/- ===== Helper lemmas ===== -/

/-- If `Except.map f r` is `ok`, then `r` was `ok` with the mapped value. -/
lemma exceptMap_ok {ε α β : Type} {r : Except ε α} {f : α → β} {o : β}
    (h : r.map f = Except.ok o) : ∃ a, r = Except.ok a ∧ o = f a := by
  cases r with
  | error e => simp [Except.map] at h
  | ok a => exact ⟨a, rfl, by simpa [Except.map] using h.symm⟩

/-- If `Except.map f r` is an error, then `r` was that error. -/
lemma exceptMap_error {ε α β : Type} {r : Except ε α} {f : α → β} {e : ε}
    (h : r.map f = Except.error e) : r = Except.error e := by
  cases r with
  | error e2 => simpa [Except.map] using h
  | ok a => simp [Except.map] at h

/-- The events appended by the bootstrapping-key-map serialization loop. -/
def btMapEvents (l : List (Nat × BTKeyM)) : List Event :=
  l.flatMap (fun p =>
    [Event.serializeFile (btMapRkLocation p.1) (Blob.refreshKeyB p.2.BSkey),
     Event.serializeFile (btMapKsLocation p.1) (Blob.switchKeyB p.2.KSkey)])

lemma serializeBTMap_ok_trace (l : List (Nat × BTKeyM)) :
    ∀ (w : String → Bool) (tr : List Event) (st : FileStore)
      (tr2 : List Event) (st2 : FileStore),
      serializeBTMap w tr st l = (tr2, Except.ok st2) →
      tr2 = tr ++ btMapEvents l := by
  induction l with
  | nil =>
    intro w tr st tr2 st2 h
    simp only [serializeBTMap] at h
    injection h with h1 h2
    subst h1
    simp [btMapEvents]
  | cons p rest ih =>
    intro w tr st tr2 st2 h
    obtain ⟨index, key⟩ := p
    simp only [serializeBTMap] at h
    split at h
    · split at h
      · have h3 := ih _ _ _ _ _ h
        subst h3
        simp [btMapEvents, List.append_assoc]
      · exact absurd h (by simp)
    · exact absurd h (by simp)

lemma serializeBTMap_error_code (l : List (Nat × BTKeyM)) :
    ∀ (w : String → Bool) (tr : List Event) (st : FileStore)
      (tr2 : List Event) (e : Diag),
      serializeBTMap w tr st l = (tr2, Except.error e) →
      e.exitCode = 1 ∧ e.msg ≠ "" := by
  induction l with
  | nil =>
    intro w tr st tr2 e h
    simp only [serializeBTMap] at h
    exact absurd h (by simp)
  | cons p rest ih =>
    intro w tr st tr2 e h
    obtain ⟨index, key⟩ := p
    simp only [serializeBTMap] at h
    split at h
    · split at h
      · exact ih _ _ _ _ _ h
      · injection h with h1 h2
        injection h2 with h2
        subst h2
        exact ⟨rfl, by decide⟩
    · injection h with h1 h2
      injection h2 with h2
      subst h2
      exact ⟨rfl, by decide⟩

lemma serializeBTMap_nonsecret (l : List (Nat × BTKeyM)) :
    ∀ (w : String → Bool) (tr : List Event) (st : FileStore),
      tr.all (fun ev => !ev.isSecretSerializeB) = true →
      ((serializeBTMap w tr st l).1).all (fun ev => !ev.isSecretSerializeB) = true := by
  induction l with
  | nil =>
    intro w tr st h
    simpa [serializeBTMap] using h
  | cons p rest ih =>
    intro w tr st h
    obtain ⟨index, key⟩ := p
    simp only [serializeBTMap]
    split
    · split
      · exact ih _ _ _ (by simp_all [Event.isSecretSerializeB])
      · simp_all [Event.isSecretSerializeB]
    · simp_all [Event.isSecretSerializeB]

/-- There is no secret-key blob. -/
def Blob.isSecretB : Blob → Bool
  | .secretKeyB _ => true
  | _ => false

lemma isSecretSerializeB_serializeFile (loc : String) (b : Blob) :
    (Event.serializeFile loc b).isSecretSerializeB = b.isSecretB := by
  cases b <;> rfl

lemma writeSeq_ok_trace (items : List WriteItem) :
    ∀ (w : String → Bool) (tr : List Event) (st : FileStore)
      (tr2 : List Event) (st2 : FileStore),
      writeSeq w items tr st = (tr2, Except.ok st2) →
      tr2 = tr ++ items.map (fun it => Event.serializeFile it.loc it.blob) := by
  induction items with
  | nil =>
    intro w tr st tr2 st2 h
    simp only [writeSeq] at h
    injection h with h1 h2
    subst h1
    simp
  | cons it rest ih =>
    intro w tr st tr2 st2 h
    simp only [writeSeq] at h
    split at h
    · have h3 := ih _ _ _ _ _ h
      subst h3
      simp
    · exact absurd h (by simp)

lemma writeSeq_error_code (items : List WriteItem) :
    ∀ (w : String → Bool) (tr : List Event) (st : FileStore)
      (tr2 : List Event) (e : Diag),
      writeSeq w items tr st = (tr2, Except.error e) →
      e.exitCode = 1 ∧ e.msg ∈ items.map WriteItem.msg := by
  induction items with
  | nil =>
    intro w tr st tr2 e h
    simp only [writeSeq] at h
    exact absurd h (by simp)
  | cons it rest ih =>
    intro w tr st tr2 e h
    simp only [writeSeq] at h
    split at h
    · have h3 := ih _ _ _ _ _ h
      exact ⟨h3.1, by simp [h3.2]⟩
    · injection h with h1 h2
      injection h2 with h2
      subst h2
      exact ⟨rfl, by simp⟩

lemma writeSeq_nonsecret (items : List WriteItem) :
    ∀ (w : String → Bool) (tr : List Event) (st : FileStore),
      items.all (fun it => ! it.blob.isSecretB) = true →
      tr.all (fun ev => !ev.isSecretSerializeB) = true →
      ((writeSeq w items tr st).1).all (fun ev => !ev.isSecretSerializeB) = true := by
  induction items with
  | nil =>
    intro w tr st hi ht
    simpa [writeSeq] using ht
  | cons it rest ih =>
    intro w tr st hi ht
    simp only [writeSeq]
    split
    · apply ih
      · simp_all
      · simp_all [isSecretSerializeB_serializeFile]
    · simp_all [isSecretSerializeB_serializeFile]

/-- The nine fixed serialize events of the server, in program order. -/
def serverFixedEvents (cc : CCState) (kp : KeyPairM) (serverC : CiphertextM)
    (binCC : BinCCState) (swk : CiphertextM) : List Event :=
  (serverWriteItems cc kp serverC binCC swk).map
    (fun it => Event.serializeFile it.loc it.blob)

lemma serverSerialize_ok_trace (cc : CCState) (kp : KeyPairM)
    (serverC : CiphertextM) (binCC : BinCCState) (swk : CiphertextM)
    (w : String → Bool) (tr tr2 : List Event) (st2 : FileStore)
    (h : serverSerialize cc kp serverC binCC swk w tr = (tr2, Except.ok st2)) :
    tr2 = tr ++ serverFixedEvents cc kp serverC binCC swk
      ++ btMapEvents binCC.btKeyMap := by
  unfold serverSerialize at h
  split at h
  · exact absurd h (by simp)
  · next trw st heq =>
      have h1 := writeSeq_ok_trace _ _ _ _ _ _ heq
      have h2 := serializeBTMap_ok_trace _ _ _ _ _ _ h
      subst h1
      subst h2
      simp [serverFixedEvents, List.append_assoc]

lemma serverSerialize_error_code (cc : CCState) (kp : KeyPairM)
    (serverC : CiphertextM) (binCC : BinCCState) (swk : CiphertextM)
    (w : String → Bool) (tr tr2 : List Event) (e : Diag)
    (h : serverSerialize cc kp serverC binCC swk w tr = (tr2, Except.error e)) :
    e.exitCode = 1 ∧ e.msg ≠ "" := by
  unfold serverSerialize at h
  split at h
  · next trw e2 heq =>
      injection h with h1 h2
      injection h2 with h2
      subst h2
      have h3 := writeSeq_error_code _ _ _ _ _ _ heq
      refine ⟨h3.1, ?_⟩
      have h4 := h3.2
      simp [serverWriteItems] at h4
      rcases h4 with h4|h4|h4|h4|h4|h4|h4|h4|h4 <;> (rw [h4]; decide)
  · exact serializeBTMap_error_code _ _ _ _ _ _ h

lemma serverSerialize_nonsecret (cc : CCState) (kp : KeyPairM)
    (serverC : CiphertextM) (binCC : BinCCState) (swk : CiphertextM)
    (w : String → Bool) (tr : List Event)
    (h : tr.all (fun ev => !ev.isSecretSerializeB) = true) :
    ((serverSerialize cc kp serverC binCC swk w tr).1).all
      (fun ev => !ev.isSecretSerializeB) = true := by
  have hw := writeSeq_nonsecret (serverWriteItems cc kp serverC binCC swk) w tr []
    (by simp [serverWriteItems, Blob.isSecretB]) h
  unfold serverSerialize
  split
  · next trw e heq =>
      rw [heq] at hw
      simpa using hw
  · next trw st heq =>
      rw [heq] at hw
      exact serializeBTMap_nonsecret _ _ _ _ (by simpa using hw)

/- ===== Client-side helper lemmas ===== -/

lemma readOne_trace {α : Type} (store : FileStore) (tr : List Event)
    (loc : String) (ext : Blob → Option α) (msg : String) :
    (readOne store tr loc ext msg).1 = tr ++ [Event.deserializeFile loc] := by
  unfold readOne
  split <;> rfl

lemma readStream_trace {α : Type} (store : FileStore) (tr : List Event)
    (loc : String) (ext : Blob → Option α) (openMsg deserMsg : String) :
    (readStream store tr loc ext openMsg deserMsg).1 =
      tr ++ [Event.deserializeFile loc] := by
  unfold readStream
  split
  · rfl
  · split <;> rfl

lemma readOne_ok {α : Type} {store : FileStore} {tr : List Event} {loc : String}
    {ext : Blob → Option α} {msg : String} {tr2 : List Event} {a : α}
    (h : readOne store tr loc ext msg = (tr2, Except.ok a)) :
    tr2 = tr ++ [Event.deserializeFile loc] ∧
      (store.get loc).bind ext = some a := by
  unfold readOne at h
  split at h
  · exact absurd h (by simp)
  · next a2 heq =>
      injection h with h1 h2
      injection h2 with h2
      subst h2
      exact ⟨h1.symm, heq⟩

lemma readOne_error {α : Type} {store : FileStore} {tr : List Event}
    {loc : String} {ext : Blob → Option α} {msg : String} {tr2 : List Event}
    {e : Diag} (h : readOne store tr loc ext msg = (tr2, Except.error e)) :
    e = ⟨1, msg⟩ ∧ tr2 = tr ++ [Event.deserializeFile loc] := by
  unfold readOne at h
  split at h
  · injection h with h1 h2
    injection h2 with h2
    exact ⟨h2.symm, h1.symm⟩
  · exact absurd h (by simp)

lemma readStream_ok {α : Type} {store : FileStore} {tr : List Event}
    {loc : String} {ext : Blob → Option α} {openMsg deserMsg : String}
    {tr2 : List Event} {a : α}
    (h : readStream store tr loc ext openMsg deserMsg = (tr2, Except.ok a)) :
    tr2 = tr ++ [Event.deserializeFile loc] ∧
      (store.get loc).bind ext = some a := by
  unfold readStream at h
  split at h
  · exact absurd h (by simp)
  · next b heq =>
      split at h
      · exact absurd h (by simp)
      · next a2 heq2 =>
          injection h with h1 h2
          injection h2 with h2
          subst h2
          exact ⟨h1.symm, by rw [heq]; exact heq2⟩

lemma readStream_error {α : Type} {store : FileStore} {tr : List Event}
    {loc : String} {ext : Blob → Option α} {openMsg deserMsg : String}
    {tr2 : List Event} {e : Diag}
    (h : readStream store tr loc ext openMsg deserMsg = (tr2, Except.error e)) :
    (e = ⟨1, openMsg⟩ ∨ e = ⟨1, deserMsg⟩) ∧
      tr2 = tr ++ [Event.deserializeFile loc] := by
  unfold readStream at h
  split at h
  · injection h with h1 h2
    injection h2 with h2
    exact ⟨Or.inl h2.symm, h1.symm⟩
  · split at h
    · injection h with h1 h2
      injection h2 with h2
      exact ⟨Or.inr h2.symm, h1.symm⟩
    · exact absurd h (by simp)

lemma clientLoadBTMap_error_code (l : List Nat) :
    ∀ (store : FileStore) (tr : List Event) (binCC : BinCCState)
      (rk kk : Nat) (tr2 : List Event) (e : Diag),
      clientLoadBTMap store tr binCC rk kk l = (tr2, Except.error e) →
      e.exitCode = 1 ∧ e.msg ≠ "" ∧
        ∃ s, tr2 = tr ++ s ∧ s.all (fun ev => !ev.isSerializeB) = true := by
  induction l with
  | nil =>
    intro store tr binCC rk kk tr2 e h
    simp only [clientLoadBTMap] at h
    exact absurd h (by simp)
  | cons b rest ih =>
    intro store tr binCC rk kk tr2 e h
    simp only [clientLoadBTMap] at h
    split at h
    · injection h with h1 h2
      injection h2 with h2
      subst h2
      exact ⟨rfl, by decide, _, h1.symm, by rfl⟩
    · split at h
      · injection h with h1 h2
        injection h2 with h2
        subst h2
        exact ⟨rfl, by decide, _, h1.symm, by rfl⟩
      · obtain ⟨hc, hm, s, hs, hall⟩ := ih _ _ _ _ _ _ _ h
        refine ⟨hc, hm,
          [Event.deserializeFile (btMapRkLocation b),
           Event.deserializeFile (btMapKsLocation b),
           Event.btKeyMapLoadSingle b] ++ s, ?_, ?_⟩
        · rw [hs]; simp
        · rw [List.all_append, hall]; rfl

lemma clientLoadBTMap_ok_single {store : FileStore} {tr : List Event}
    {binCC : BinCCState} {rk kk b : Nat} {tr2 : List Event}
    {out : BinCCState × Nat × Nat}
    (h : clientLoadBTMap store tr binCC rk kk [b] = (tr2, Except.ok out)) :
    ∃ rk1 kk1,
      (store.get (btMapRkLocation b)).bind Blob.asRefreshKey = some rk1 ∧
      (store.get (btMapKsLocation b)).bind Blob.asSwitchKey = some kk1 ∧
      out = (⟨binCC.paramset, binCC.arbFunc, binCC.logQ, binCC.beta,
             binCC.refreshKey, binCC.switchKey,
             binCC.btKeyMap ++ [(b, ⟨rk1, kk1⟩)]⟩, rk1, kk1) ∧
      tr2 = tr ++ [Event.deserializeFile (btMapRkLocation b),
                   Event.deserializeFile (btMapKsLocation b),
                   Event.btKeyMapLoadSingle b] := by
  simp only [clientLoadBTMap] at h
  split at h
  · exact absurd h (by simp)
  · next rk1 heq1 =>
      split at h
      · exact absurd h (by simp)
      · next kk1 heq2 =>
          injection h with h1 h2
          injection h2 with h2
          exact ⟨rk1, kk1, heq1, heq2, h2.symm, h1.symm⟩

/-- The full event trace of a successful `clientProcess` run. -/
def clientOkTrace (m beta : Nat) (result : CiphertextM) : List Event :=
  [Event.clearEvalMultKeys, Event.clearEvalSumKeys,
   Event.clearEvalAutomorphismKeys, Event.releaseAllContexts,
   Event.deserializeFile (DATAFOLDER ++ ccLocation),
   Event.deserializeFile (DATAFOLDER ++ pubKeyLocation),
   Event.deserializeFile (DATAFOLDER ++ multKeyLocation),
   Event.deserializeFile (DATAFOLDER ++ rotKeyLocation),
   Event.deserializeFile (DATAFOLDER ++ binccLocation),
   Event.deserializeFile (DATAFOLDER ++ btRkLocation),
   Event.deserializeFile (DATAFOLDER ++ btSwkLocation),
   Event.deserializeFile (btMapRkLocation (1 <<< 18)),
   Event.deserializeFile (btMapKsLocation (1 <<< 18)),
   Event.btKeyMapLoadSingle (1 <<< 18),
   Event.btKeyLoad, Event.setBinCC,
   Event.deserializeFile (DATAFOLDER ++ FHEWtoCKKSKeyLocation),
   Event.setSwkFC,
   Event.deserializeFile (DATAFOLDER ++ cipherLocation),
   Event.precompute (m / (2 * beta)) 0 512 false, Event.evalMin,
   Event.serializeFile (DATAFOLDER ++ cipherArgminLocation) (.ctB result)]

/-- Full characterization of a successful client run: every blob the client
needs is present in the store with the right kind, the reconstructed state
is built from exactly those blobs, and the trace is the full literal event
sequence. -/
lemma clientProcess_ok {store : FileStore} {m : Nat} {w : String → Bool}
    {tr : List Event} {st2 : FileStore} {out : ClientOut}
    (h : clientProcess store m w = (tr, Except.ok (st2, out))) :
    ∃ ccSer pk mk rotk binSer rk0 kk0 rk1 kk1 swk ct,
      (store.get (DATAFOLDER ++ ccLocation)).bind Blob.asCC = some ccSer ∧
      (store.get (DATAFOLDER ++ pubKeyLocation)).bind Blob.asPubKey = some pk ∧
      (store.get (DATAFOLDER ++ multKeyLocation)).bind Blob.asMultKeys = some mk ∧
      (store.get (DATAFOLDER ++ rotKeyLocation)).bind Blob.asAutoKeys = some rotk ∧
      (store.get (DATAFOLDER ++ binccLocation)).bind Blob.asBinCC = some binSer ∧
      (store.get (DATAFOLDER ++ btRkLocation)).bind Blob.asRefreshKey = some rk0 ∧
      (store.get (DATAFOLDER ++ btSwkLocation)).bind Blob.asSwitchKey = some kk0 ∧
      (store.get (btMapRkLocation (1 <<< 18))).bind Blob.asRefreshKey = some rk1 ∧
      (store.get (btMapKsLocation (1 <<< 18))).bind Blob.asSwitchKey = some kk1 ∧
      (store.get (DATAFOLDER ++ FHEWtoCKKSKeyLocation)).bind Blob.asCt = some swk ∧
      (store.get (DATAFOLDER ++ cipherLocation)).bind Blob.asCt = some ct ∧
      out = ⟨⟨ccSer.params, ccSer.enabled, some mk, some rotk,
              some ⟨binSer.paramset, binSer.arbFunc, binSer.logQ, binSer.beta,
                    rk1, kk1, [(1 <<< 18, ⟨rk1, kk1⟩)]⟩,
              some swk⟩,
             ⟨binSer.paramset, binSer.arbFunc, binSer.logQ, binSer.beta,
              rk1, kk1, [(1 <<< 18, ⟨rk1, kk1⟩)]⟩,
             ⟨oneHotOfMin ct.payload, ct.slots⟩⟩ ∧
      tr = clientOkTrace m binSer.beta ⟨oneHotOfMin ct.payload, ct.slots⟩ ∧
      st2 = (if w (DATAFOLDER ++ cipherArgminLocation)
             then store.put (DATAFOLDER ++ cipherArgminLocation)
               (.ctB ⟨oneHotOfMin ct.payload, ct.slots⟩)
             else store) := by
  unfold clientProcess at h
  rcases h1 : readOne store
      [Event.clearEvalMultKeys, Event.clearEvalSumKeys,
       Event.clearEvalAutomorphismKeys, Event.releaseAllContexts]
      (DATAFOLDER ++ ccLocation) Blob.asCC
      ("I cannot read serialized data from: " ++ DATAFOLDER ++ ccLocation)
    with ⟨tr1, r1⟩
  cases r1 with
  | error e => rw [h1] at h; exact absurd h (by simp)
  | ok ccSer =>
  obtain ⟨htr1, hget1⟩ := readOne_ok h1
  simp only [h1] at h
  rcases h2 : readOne store tr1 (DATAFOLDER ++ pubKeyLocation) Blob.asPubKey
      ("I cannot read serialized data from: " ++ DATAFOLDER ++ pubKeyLocation)
    with ⟨tr2, r2⟩
  cases r2 with
  | error e => rw [h2] at h; exact absurd h (by simp)
  | ok pk =>
  obtain ⟨htr2, hget2⟩ := readOne_ok h2
  simp only [h2] at h
  rcases h3 : readStream store tr2 (DATAFOLDER ++ multKeyLocation) Blob.asMultKeys
      ("Cannot read serialization from " ++ DATAFOLDER ++ multKeyLocation)
      "Could not deserialize eval mult key file"
    with ⟨tr3, r3⟩
  cases r3 with
  | error e => rw [h3] at h; exact absurd h (by simp)
  | ok mk =>
  obtain ⟨htr3, hget3⟩ := readStream_ok h3
  simp only [h3] at h
  rcases h4 : readStream store tr3 (DATAFOLDER ++ rotKeyLocation) Blob.asAutoKeys
      ("Cannot read serialization from " ++ DATAFOLDER ++ multKeyLocation)
      "Could not deserialize eval rot key file"
    with ⟨tr4, r4⟩
  cases r4 with
  | error e => rw [h4] at h; exact absurd h (by simp)
  | ok rotk =>
  obtain ⟨htr4, hget4⟩ := readStream_ok h4
  simp only [h4] at h
  rcases h5 : readOne store tr4 (DATAFOLDER ++ binccLocation) Blob.asBinCC
      "Could not deserialize the binfhe cryptocontext"
    with ⟨tr5, r5⟩
  cases r5 with
  | error e => rw [h5] at h; exact absurd h (by simp)
  | ok binSer =>
  obtain ⟨htr5, hget5⟩ := readOne_ok h5
  simp only [h5] at h
  rcases h6 : readOne store tr5 (DATAFOLDER ++ btRkLocation) Blob.asRefreshKey
      "Could not deserialize the refresh key"
    with ⟨tr6, r6⟩
  cases r6 with
  | error e => rw [h6] at h; exact absurd h (by simp)
  | ok rk0 =>
  obtain ⟨htr6, hget6⟩ := readOne_ok h6
  simp only [h6] at h
  rcases h7 : readOne store tr6 (DATAFOLDER ++ btSwkLocation) Blob.asSwitchKey
      "Could not deserialize the switching key"
    with ⟨tr7, r7⟩
  cases r7 with
  | error e => rw [h7] at h; exact absurd h (by simp)
  | ok kk0 =>
  obtain ⟨htr7, hget7⟩ := readOne_ok h7
  simp only [h7] at h
  rcases h8 : clientLoadBTMap store tr7
      ⟨binSer.paramset, binSer.arbFunc, binSer.logQ, binSer.beta, 0, 0, []⟩
      rk0 kk0 [1 <<< 18]
    with ⟨tr8, r8⟩
  cases r8 with
  | error e => rw [h8] at h; exact absurd h (by simp)
  | ok trip =>
  obtain ⟨binCC2, rk2, kk2⟩ := trip
  obtain ⟨rk1, kk1, hget8a, hget8b, htrip, htr8⟩ := clientLoadBTMap_ok_single h8
  simp only [h8] at h
  injection htrip with htripA htripB
  injection htripB with htripB htripC
  subst htripA
  subst htripB
  subst htripC
  rcases h9 : readOne store (tr8 ++ [Event.btKeyLoad, Event.setBinCC])
      (DATAFOLDER ++ FHEWtoCKKSKeyLocation) Blob.asCt
      ("Cannot read serialization from " ++ DATAFOLDER ++ FHEWtoCKKSKeyLocation)
    with ⟨tr9, r9⟩
  cases r9 with
  | error e => rw [h9] at h; exact absurd h (by simp)
  | ok swk =>
  obtain ⟨htr9, hget9⟩ := readOne_ok h9
  simp only [h9] at h
  rcases h10 : readOne store (tr9 ++ [Event.setSwkFC])
      (DATAFOLDER ++ cipherLocation) Blob.asCt
      ("Cannot read serialization from " ++ DATAFOLDER ++ cipherLocation)
    with ⟨tr10, r10⟩
  cases r10 with
  | error e => rw [h10] at h; exact absurd h (by simp)
  | ok ct =>
  obtain ⟨htr10, hget10⟩ := readOne_ok h10
  simp only [h10] at h
  subst htr1
  subst htr2
  subst htr3
  subst htr4
  subst htr5
  subst htr6
  subst htr7
  subst htr8
  subst htr9
  subst htr10
  injection h with hTr hRes
  injection hRes with hRes
  injection hRes with hSt hOut
  refine ⟨ccSer, pk, mk, rotk, binSer, rk0, kk0, rk2, kk2, swk, ct,
    hget1, hget2, hget3, hget4, hget5, hget6, hget7, hget8a, hget8b,
    hget9, hget10, ?_, ?_, ?_⟩
  · rw [← hOut]
    simp [evalMinSchemeSwitching]
  · rw [← hTr]
    simp [clientOkTrace, evalMinSchemeSwitching]
  · rw [← hSt]
    simp [evalMinSchemeSwitching]

/-- Characterization of a failing client run: the exit code is 1 with a
nonempty diagnostic, the trace still starts with the four registry-clearing
events, and nothing was serialized before the abort. -/
lemma clientProcess_error {store : FileStore} {m : Nat} {w : String → Bool}
    {tr : List Event} {e : Diag}
    (h : clientProcess store m w = (tr, Except.error e)) :
    e.exitCode = 1 ∧ e.msg ≠ "" ∧
    ∃ rest, tr = [Event.clearEvalMultKeys, Event.clearEvalSumKeys,
      Event.clearEvalAutomorphismKeys, Event.releaseAllContexts] ++ rest ∧
      rest.all (fun ev => !ev.isSerializeB) = true := by
  unfold clientProcess at h
  rcases h1 : readOne store
      [Event.clearEvalMultKeys, Event.clearEvalSumKeys,
       Event.clearEvalAutomorphismKeys, Event.releaseAllContexts]
      (DATAFOLDER ++ ccLocation) Blob.asCC
      ("I cannot read serialized data from: " ++ DATAFOLDER ++ ccLocation)
    with ⟨tr1, r1⟩
  cases r1 with
  | error e2 =>
      rw [h1] at h
      simp only [Prod.mk.injEq, Except.error.injEq] at h
      obtain ⟨hTr, hE⟩ := h
      subst hE
      obtain ⟨hE2, hTr2⟩ := readOne_error h1
      subst hE2
      refine ⟨rfl, by decide,
        [Event.deserializeFile (DATAFOLDER ++ ccLocation)], ?_, by rfl⟩
      rw [← hTr, hTr2]
  | ok ccSer =>
  obtain ⟨htr1, _⟩ := readOne_ok h1
  simp only [h1] at h
  subst htr1
  rcases h2 : readOne store _ (DATAFOLDER ++ pubKeyLocation) Blob.asPubKey
      ("I cannot read serialized data from: " ++ DATAFOLDER ++ pubKeyLocation)
    with ⟨tr2, r2⟩
  cases r2 with
  | error e2 =>
      rw [h2] at h
      simp only [Prod.mk.injEq, Except.error.injEq] at h
      obtain ⟨hTr, hE⟩ := h
      subst hE
      obtain ⟨hE2, hTr2⟩ := readOne_error h2
      subst hE2
      refine ⟨rfl, by decide,
        [Event.deserializeFile (DATAFOLDER ++ ccLocation),
         Event.deserializeFile (DATAFOLDER ++ pubKeyLocation)], ?_, by rfl⟩
      rw [← hTr, hTr2]
      simp
  | ok pk =>
  obtain ⟨htr2, _⟩ := readOne_ok h2
  simp only [h2] at h
  subst htr2
  rcases h3 : readStream store _ (DATAFOLDER ++ multKeyLocation) Blob.asMultKeys
      ("Cannot read serialization from " ++ DATAFOLDER ++ multKeyLocation)
      "Could not deserialize eval mult key file"
    with ⟨tr3, r3⟩
  cases r3 with
  | error e2 =>
      rw [h3] at h
      simp only [Prod.mk.injEq, Except.error.injEq] at h
      obtain ⟨hTr, hE⟩ := h
      subst hE
      obtain ⟨hE2, hTr2⟩ := readStream_error h3
      refine ⟨?_, ?_, ?_⟩
      · rcases hE2 with hE2 | hE2 <;> (subst hE2; rfl)
      · rcases hE2 with hE2 | hE2 <;> (subst hE2; decide)
      · refine ⟨[Event.deserializeFile (DATAFOLDER ++ ccLocation),
          Event.deserializeFile (DATAFOLDER ++ pubKeyLocation),
          Event.deserializeFile (DATAFOLDER ++ multKeyLocation)], ?_, by rfl⟩
        rw [← hTr, hTr2]
        simp
  | ok mk =>
  obtain ⟨htr3, _⟩ := readStream_ok h3
  simp only [h3] at h
  subst htr3
  rcases h4 : readStream store _ (DATAFOLDER ++ rotKeyLocation) Blob.asAutoKeys
      ("Cannot read serialization from " ++ DATAFOLDER ++ multKeyLocation)
      "Could not deserialize eval rot key file"
    with ⟨tr4, r4⟩
  cases r4 with
  | error e2 =>
      rw [h4] at h
      simp only [Prod.mk.injEq, Except.error.injEq] at h
      obtain ⟨hTr, hE⟩ := h
      subst hE
      obtain ⟨hE2, hTr2⟩ := readStream_error h4
      refine ⟨?_, ?_, ?_⟩
      · rcases hE2 with hE2 | hE2 <;> (subst hE2; rfl)
      · rcases hE2 with hE2 | hE2 <;> (subst hE2; decide)
      · refine ⟨[Event.deserializeFile (DATAFOLDER ++ ccLocation),
          Event.deserializeFile (DATAFOLDER ++ pubKeyLocation),
          Event.deserializeFile (DATAFOLDER ++ multKeyLocation),
          Event.deserializeFile (DATAFOLDER ++ rotKeyLocation)], ?_, by rfl⟩
        rw [← hTr, hTr2]
        simp
  | ok rotk =>
  obtain ⟨htr4, _⟩ := readStream_ok h4
  simp only [h4] at h
  subst htr4
  rcases h5 : readOne store _ (DATAFOLDER ++ binccLocation) Blob.asBinCC
      "Could not deserialize the binfhe cryptocontext"
    with ⟨tr5, r5⟩
  cases r5 with
  | error e2 =>
      rw [h5] at h
      simp only [Prod.mk.injEq, Except.error.injEq] at h
      obtain ⟨hTr, hE⟩ := h
      subst hE
      obtain ⟨hE2, hTr2⟩ := readOne_error h5
      subst hE2
      refine ⟨rfl, by decide,
        [Event.deserializeFile (DATAFOLDER ++ ccLocation),
         Event.deserializeFile (DATAFOLDER ++ pubKeyLocation),
         Event.deserializeFile (DATAFOLDER ++ multKeyLocation),
         Event.deserializeFile (DATAFOLDER ++ rotKeyLocation),
         Event.deserializeFile (DATAFOLDER ++ binccLocation)], ?_, by rfl⟩
      rw [← hTr, hTr2]
      simp
  | ok binSer =>
  obtain ⟨htr5, _⟩ := readOne_ok h5
  simp only [h5] at h
  subst htr5
  rcases h6 : readOne store _ (DATAFOLDER ++ btRkLocation) Blob.asRefreshKey
      "Could not deserialize the refresh key"
    with ⟨tr6, r6⟩
  cases r6 with
  | error e2 =>
      rw [h6] at h
      simp only [Prod.mk.injEq, Except.error.injEq] at h
      obtain ⟨hTr, hE⟩ := h
      subst hE
      obtain ⟨hE2, hTr2⟩ := readOne_error h6
      subst hE2
      refine ⟨rfl, by decide,
        [Event.deserializeFile (DATAFOLDER ++ ccLocation),
         Event.deserializeFile (DATAFOLDER ++ pubKeyLocation),
         Event.deserializeFile (DATAFOLDER ++ multKeyLocation),
         Event.deserializeFile (DATAFOLDER ++ rotKeyLocation),
         Event.deserializeFile (DATAFOLDER ++ binccLocation),
         Event.deserializeFile (DATAFOLDER ++ btRkLocation)], ?_, by rfl⟩
      rw [← hTr, hTr2]
      simp
  | ok rk0 =>
  obtain ⟨htr6, _⟩ := readOne_ok h6
  simp only [h6] at h
  subst htr6
  rcases h7 : readOne store _ (DATAFOLDER ++ btSwkLocation) Blob.asSwitchKey
      "Could not deserialize the switching key"
    with ⟨tr7, r7⟩
  cases r7 with
  | error e2 =>
      rw [h7] at h
      simp only [Prod.mk.injEq, Except.error.injEq] at h
      obtain ⟨hTr, hE⟩ := h
      subst hE
      obtain ⟨hE2, hTr2⟩ := readOne_error h7
      subst hE2
      refine ⟨rfl, by decide,
        [Event.deserializeFile (DATAFOLDER ++ ccLocation),
         Event.deserializeFile (DATAFOLDER ++ pubKeyLocation),
         Event.deserializeFile (DATAFOLDER ++ multKeyLocation),
         Event.deserializeFile (DATAFOLDER ++ rotKeyLocation),
         Event.deserializeFile (DATAFOLDER ++ binccLocation),
         Event.deserializeFile (DATAFOLDER ++ btRkLocation),
         Event.deserializeFile (DATAFOLDER ++ btSwkLocation)], ?_, by rfl⟩
      rw [← hTr, hTr2]
      simp
  | ok kk0 =>
  obtain ⟨htr7, _⟩ := readOne_ok h7
  simp only [h7] at h
  subst htr7
  rcases h8 : clientLoadBTMap store _
      ⟨binSer.paramset, binSer.arbFunc, binSer.logQ, binSer.beta, 0, 0, []⟩
      rk0 kk0 [1 <<< 18]
    with ⟨tr8, r8⟩
  cases r8 with
  | error e2 =>
      rw [h8] at h
      simp only [Prod.mk.injEq, Except.error.injEq] at h
      obtain ⟨hTr, hE⟩ := h
      subst hE
      obtain ⟨hc, hm, s, hs, hall⟩ := clientLoadBTMap_error_code _ _ _ _ _ _ _ _ h8
      refine ⟨hc, hm,
        [Event.deserializeFile (DATAFOLDER ++ ccLocation),
         Event.deserializeFile (DATAFOLDER ++ pubKeyLocation),
         Event.deserializeFile (DATAFOLDER ++ multKeyLocation),
         Event.deserializeFile (DATAFOLDER ++ rotKeyLocation),
         Event.deserializeFile (DATAFOLDER ++ binccLocation),
         Event.deserializeFile (DATAFOLDER ++ btRkLocation),
         Event.deserializeFile (DATAFOLDER ++ btSwkLocation)] ++ s, ?_, ?_⟩
      · rw [← hTr, hs]
        simp
      · rw [List.all_append, hall]
        rfl
  | ok trip =>
  obtain ⟨binCC2, rk2, kk2⟩ := trip
  obtain ⟨rk1, kk1, _, _, htrip, htr8⟩ := clientLoadBTMap_ok_single h8
  simp only [h8] at h
  subst htr8
  rcases h9 : readOne store _ (DATAFOLDER ++ FHEWtoCKKSKeyLocation) Blob.asCt
      ("Cannot read serialization from " ++ DATAFOLDER ++ FHEWtoCKKSKeyLocation)
    with ⟨tr9, r9⟩
  cases r9 with
  | error e2 =>
      rw [h9] at h
      simp only [Prod.mk.injEq, Except.error.injEq] at h
      obtain ⟨hTr, hE⟩ := h
      subst hE
      obtain ⟨hE2, hTr2⟩ := readOne_error h9
      subst hE2
      refine ⟨rfl, by decide,
        [Event.deserializeFile (DATAFOLDER ++ ccLocation),
         Event.deserializeFile (DATAFOLDER ++ pubKeyLocation),
         Event.deserializeFile (DATAFOLDER ++ multKeyLocation),
         Event.deserializeFile (DATAFOLDER ++ rotKeyLocation),
         Event.deserializeFile (DATAFOLDER ++ binccLocation),
         Event.deserializeFile (DATAFOLDER ++ btRkLocation),
         Event.deserializeFile (DATAFOLDER ++ btSwkLocation),
         Event.deserializeFile (btMapRkLocation (1 <<< 18)),
         Event.deserializeFile (btMapKsLocation (1 <<< 18)),
         Event.btKeyMapLoadSingle (1 <<< 18),
         Event.btKeyLoad, Event.setBinCC,
         Event.deserializeFile (DATAFOLDER ++ FHEWtoCKKSKeyLocation)], ?_, by rfl⟩
      rw [← hTr, hTr2]
      simp
  | ok swk =>
  obtain ⟨htr9, _⟩ := readOne_ok h9
  simp only [h9] at h
  subst htr9
  rcases h10 : readOne store _ (DATAFOLDER ++ cipherLocation) Blob.asCt
      ("Cannot read serialization from " ++ DATAFOLDER ++ cipherLocation)
    with ⟨tr10, r10⟩
  cases r10 with
  | error e2 =>
      rw [h10] at h
      simp only [Prod.mk.injEq, Except.error.injEq] at h
      obtain ⟨hTr, hE⟩ := h
      subst hE
      obtain ⟨hE2, hTr2⟩ := readOne_error h10
      subst hE2
      refine ⟨rfl, by decide,
        [Event.deserializeFile (DATAFOLDER ++ ccLocation),
         Event.deserializeFile (DATAFOLDER ++ pubKeyLocation),
         Event.deserializeFile (DATAFOLDER ++ multKeyLocation),
         Event.deserializeFile (DATAFOLDER ++ rotKeyLocation),
         Event.deserializeFile (DATAFOLDER ++ binccLocation),
         Event.deserializeFile (DATAFOLDER ++ btRkLocation),
         Event.deserializeFile (DATAFOLDER ++ btSwkLocation),
         Event.deserializeFile (btMapRkLocation (1 <<< 18)),
         Event.deserializeFile (btMapKsLocation (1 <<< 18)),
         Event.btKeyMapLoadSingle (1 <<< 18),
         Event.btKeyLoad, Event.setBinCC,
         Event.deserializeFile (DATAFOLDER ++ FHEWtoCKKSKeyLocation),
         Event.setSwkFC,
         Event.deserializeFile (DATAFOLDER ++ cipherLocation)], ?_, by rfl⟩
      rw [← hTr, hTr2]
      simp
  | ok ct =>
      obtain ⟨htr10, _⟩ := readOne_ok h10
      simp only [h10] at h
      exact absurd h (by simp)

/-- A non-serialize event is in particular not a serialization of the
secret key. -/
lemma notSerialize_notSecret {ev : Event} (h : ev.isSerializeB = false) :
    ev.isSecretSerializeB = false := by
  cases ev <;> simp_all [Event.isSerializeB, Event.isSecretSerializeB]

/-- The client never serializes the secret key, on any store and in any
outcome. -/
lemma clientProcess_nonsecret (store : FileStore) (m : Nat) (w : String → Bool) :
    ((clientProcess store m w).1).all (fun ev => !ev.isSecretSerializeB) = true := by
  rcases hr : clientProcess store m w with ⟨tr, r⟩
  cases r with
  | error e =>
      obtain ⟨-, -, rest, htr, hall⟩ := clientProcess_error hr
      subst htr
      rw [List.all_append, Bool.and_eq_true]
      refine ⟨by rfl, ?_⟩
      rw [List.all_eq_true] at hall ⊢
      intro x hx
      have h2 := hall x hx
      simp only [Bool.not_eq_true'] at h2 ⊢
      exact notSerialize_notSecret h2
  | ok p =>
      obtain ⟨st2, out⟩ := p
      obtain ⟨ccSer, pk, mk, rotk, binSer, rk0, kk0, rk1, kk1, swk, ct,
        -, -, -, -, -, -, -, -, -, -, -, -, htr, -⟩ := clientProcess_ok hr
      subst htr
      rfl

/-- The `ServerArtifacts` produced by `serverContextSetup`, computed. -/
lemma serverContextSetup_eq (ringDim batchSize multDepth scaleModSize
    firstModSize logQ_LWE : Nat) (oneHot : Bool) (eng : Engine) :
    serverContextSetup ringDim batchSize multDepth scaleModSize firstModSize
      logQ_LWE oneHot eng =
    ⟨⟨⟨multDepth, .HEStd_NotSet, ringDim, batchSize, scaleModSize,
       firstModSize, .FLEXIBLEAUTO⟩,
      [.PKE, .KEYSWITCH, .LEVELEDSHE, .ADVANCEDSHE, .FHE, .SCHEMESWITCH],
      some eng.evalMultKeys, some eng.autoKeys,
      some ⟨.TOY, false, logQ_LWE, eng.beta, eng.binRefreshKey,
            eng.binSwitchKey, eng.btKeyMap⟩,
      some eng.swkFC⟩,
     ⟨eng.publicKey, eng.secretKey⟩,
     makeCKKSPackedPlaintext batchSize serverVec,
     encryptM eng.publicKey (makeCKKSPackedPlaintext batchSize serverVec),
     ⟨.TOY, false, logQ_LWE, eng.beta, eng.binRefreshKey, eng.binSwitchKey,
      eng.btKeyMap⟩,
     eng.swkFC,
     [Event.encryptEv eng.publicKey]⟩ := rfl

/-- On success, `serverSetupAndWrite` returns the store produced by the
serialization phase, the retained context and key pair, and the sample
vector's length, and its trace is the encrypt event followed by the fixed
pack events and the per-base map events. -/
lemma serverSetupAndWrite_ok {ringDim batchSize multDepth scaleModSize
    firstModSize logQ_LWE : Nat} {oneHot : Bool} {eng : Engine}
    {w : String → Bool} {tr : List Event}
    {out : FileStore × CCState × KeyPairM × Nat}
    (h : serverSetupAndWrite ringDim batchSize multDepth scaleModSize
      firstModSize logQ_LWE oneHot eng w = (tr, Except.ok out)) :
    ∃ st,
      serverSerialize
        (serverContextSetup ringDim batchSize multDepth scaleModSize
          firstModSize logQ_LWE oneHot eng).cc
        (serverContextSetup ringDim batchSize multDepth scaleModSize
          firstModSize logQ_LWE oneHot eng).kp
        (serverContextSetup ringDim batchSize multDepth scaleModSize
          firstModSize logQ_LWE oneHot eng).serverC
        (serverContextSetup ringDim batchSize multDepth scaleModSize
          firstModSize logQ_LWE oneHot eng).binCC
        (serverContextSetup ringDim batchSize multDepth scaleModSize
          firstModSize logQ_LWE oneHot eng).swkFC w
        [Event.encryptEv eng.publicKey] = (tr, Except.ok st) ∧
      out = (st,
        (serverContextSetup ringDim batchSize multDepth scaleModSize
          firstModSize logQ_LWE oneHot eng).cc,
        (serverContextSetup ringDim batchSize multDepth scaleModSize
          firstModSize logQ_LWE oneHot eng).kp,
        serverVec.length) := by
  unfold serverSetupAndWrite at h
  injection h with h1 h2
  obtain ⟨st, hst, hout⟩ := exceptMap_ok h2
  exact ⟨st, Prod.ext_iff.2 ⟨h1, hst⟩, hout⟩

/-- Any error from `serverSetupAndWrite` carries exit code 1 and a nonempty
diagnostic. -/
lemma serverSetupAndWrite_error {ringDim batchSize multDepth scaleModSize
    firstModSize logQ_LWE : Nat} {oneHot : Bool} {eng : Engine}
    {w : String → Bool} {tr : List Event} {e : Diag}
    (h : serverSetupAndWrite ringDim batchSize multDepth scaleModSize
      firstModSize logQ_LWE oneHot eng w = (tr, Except.error e)) :
    e.exitCode = 1 ∧ e.msg ≠ "" := by
  unfold serverSetupAndWrite at h
  injection h with h1 h2
  have h3 := exceptMap_error h2
  exact serverSerialize_error_code _ _ _ _ _ _ _ _ _ (Prod.ext_iff.2 ⟨rfl, h3⟩)

/-- The server never serializes the secret key, whatever the write
environment does. -/
lemma serverSetupAndWrite_nonsecret (ringDim batchSize multDepth scaleModSize
    firstModSize logQ_LWE : Nat) (oneHot : Bool) (eng : Engine)
    (w : String → Bool) :
    ((serverSetupAndWrite ringDim batchSize multDepth scaleModSize
      firstModSize logQ_LWE oneHot eng w).1).all
      (fun ev => !ev.isSecretSerializeB) = true := by
  unfold serverSetupAndWrite
  exact serverSerialize_nonsecret _ _ _ _ _ _ _ (by rfl)

/-- No serialization call across the whole run (server setup, client,
verification) ever receives the secret key. -/
lemma mainRun_nonsecret (eng : Engine) (w : String → Bool) :
    ((mainRun eng w).1).all (fun ev => !ev.isSecretSerializeB) = true := by
  simp only [mainRun]
  split
  · next tr1 e heq =>
      have h1 := serverSetupAndWrite_nonsecret 64 4 (13 + Nat.log2 4) 50 60 25
        true eng w
      rw [heq] at h1
      simpa using h1
  · next tr1 store cc kp vectorSize heq =>
      have h1 := serverSetupAndWrite_nonsecret 64 4 (13 + Nat.log2 4) 50 60 25
        true eng w
      rw [heq] at h1
      split
      · next tr2 e heq2 =>
          have h2 := clientProcess_nonsecret store (1 <<< 25) w
          rw [heq2] at h2
          simp only [List.all_append, Bool.and_eq_true]
          exact ⟨by simpa using h1, by simpa using h2⟩
      · next tr2 store2 cOut heq2 =>
          have h2 := clientProcess_nonsecret store (1 <<< 25) w
          rw [heq2] at h2
          simp only [List.all_append, Bool.and_eq_true]
          exact ⟨⟨by simpa using h1, by simpa using h2⟩, by rfl⟩

/- ===== Claim theorems ===== -/

lemma btMapEvents_locs (l : List (Nat × BTKeyM)) :
    (btMapEvents l).filterMap Event.serLoc =
      l.flatMap (fun p => [btMapRkLocation p.1, btMapKsLocation p.1]) := by
  induction l with
  | nil => rfl
  | cons p rest ih =>
      simp only [btMapEvents, List.flatMap_cons, List.filterMap_append] at ih ⊢
      rw [ih]
      rfl

/-- C10: whatever arguments the caller passes, server setup hard-codes the
primary context's security level to `HEStd_NotSet`, the secondary
bit-scheme preset to `TOY` and the arbitrary-function flag to `false`;
none of these is derived from the setup arguments. -/
theorem C10_fixed_setup_constants (ringDim batchSize multDepth scaleModSize
    firstModSize logQ_LWE : Nat) (oneHot : Bool) (eng : Engine) :
    (serverContextSetup ringDim batchSize multDepth scaleModSize firstModSize
      logQ_LWE oneHot eng).cc.params.securityLevel =
        SecurityLevel.HEStd_NotSet ∧
    (serverContextSetup ringDim batchSize multDepth scaleModSize firstModSize
      logQ_LWE oneHot eng).binCC.paramset = BINFHE_PARAMSET.TOY ∧
    (serverContextSetup ringDim batchSize multDepth scaleModSize firstModSize
      logQ_LWE oneHot eng).binCC.arbFunc = false :=
  ⟨rfl, rfl, rfl⟩

/-- C3: on a successful server setup, the pack calls happen in exactly the
order: context, public key, relinearization keys, rotation keys,
inter-scheme switching key, initial ciphertext, secondary context,
secondary refresh key, secondary switching key, then one blob pair per
`BTKeyMap` entry keyed by its decomposition base. -/
theorem C3_server_pack_order (ringDim batchSize multDepth scaleModSize
    firstModSize logQ_LWE : Nat) (oneHot : Bool) (eng : Engine)
    (w : String → Bool) (tr : List Event)
    (out : FileStore × CCState × KeyPairM × Nat)
    (h : serverSetupAndWrite ringDim batchSize multDepth scaleModSize
      firstModSize logQ_LWE oneHot eng w = (tr, Except.ok out)) :
    tr.filterMap Event.serLoc =
      [DATAFOLDER ++ ccLocation, DATAFOLDER ++ pubKeyLocation,
       DATAFOLDER ++ multKeyLocation, DATAFOLDER ++ rotKeyLocation,
       DATAFOLDER ++ FHEWtoCKKSKeyLocation, DATAFOLDER ++ cipherLocation,
       DATAFOLDER ++ binccLocation, DATAFOLDER ++ btRkLocation,
       DATAFOLDER ++ btSwkLocation] ++
      eng.btKeyMap.flatMap
        (fun p => [btMapRkLocation p.1, btMapKsLocation p.1]) := by
  obtain ⟨st, hser, -⟩ := serverSetupAndWrite_ok h
  have htr := serverSerialize_ok_trace _ _ _ _ _ _ _ _ _ hser
  subst htr
  rw [serverContextSetup_eq]
  rw [List.filterMap_append, List.filterMap_append, btMapEvents_locs]
  rfl

/-- C3 witness: the concrete demo run with engine `eng0`. -/
theorem C3_server_pack_order_witness :
    ((serverSetupAndWrite 64 4 15 50 60 25 true eng0 (fun _ => true)).1).filterMap
      Event.serLoc =
      [DATAFOLDER ++ ccLocation, DATAFOLDER ++ pubKeyLocation,
       DATAFOLDER ++ multKeyLocation, DATAFOLDER ++ rotKeyLocation,
       DATAFOLDER ++ FHEWtoCKKSKeyLocation, DATAFOLDER ++ cipherLocation,
       DATAFOLDER ++ binccLocation, DATAFOLDER ++ btRkLocation,
       DATAFOLDER ++ btSwkLocation] ++
      eng0.btKeyMap.flatMap
        (fun p => [btMapRkLocation p.1, btMapKsLocation p.1]) :=
  C3_server_pack_order 64 4 15 50 60 25 true eng0 (fun _ => true) _ _ rfl

/-- C1 counterexample: `serverVerification` continues past a failed unpack.
On an empty store the result-ciphertext blob is missing (the deserialization
fails), yet the role returns normally with the decryption of a
default-constructed ciphertext instead of aborting with a non-zero status. -/
theorem C1_counterexample :
    FileStore.get [] (DATAFOLDER ++ cipherArgminLocation) = none ∧
    (serverVerification [] cc0 kp0 4).2 = Except.ok ⟨[]⟩ :=
  ⟨rfl, rfl⟩

/-- C1 amended: every CHECKED pack/unpack failure (all server-setup packs,
all client unpacks) aborts with exit status 1 and a nonempty diagnostic;
but the verifier's unpack of the returned ciphertext is unchecked (it
always returns normally), and the client's final pack of the result
ciphertext is unchecked (a run whose only write failure is the result blob
still completes normally). -/
theorem C1_amended_abort_behavior (ringDim batchSize multDepth scaleModSize
    firstModSize logQ_LWE : Nat) (oneHot : Bool) (eng : Engine)
    (w : String → Bool) (store : FileStore) (m : Nat) (w2 : String → Bool)
    (store2 : FileStore) (cc : CCState) (kp : KeyPairM) (n : Nat)
    (tr1 tr2 : List Event) (e1 e2 : Diag)
    (h1 : serverSetupAndWrite ringDim batchSize multDepth scaleModSize
      firstModSize logQ_LWE oneHot eng w = (tr1, Except.error e1))
    (h2 : clientProcess store m w2 = (tr2, Except.error e2)) :
    (e1.exitCode = 1 ∧ e1.msg ≠ "") ∧ (e2.exitCode = 1 ∧ e2.msg ≠ "") ∧
    (∃ pt, (serverVerification store2 cc kp n).2 = Except.ok pt) ∧
    ((clientProcess (serverStoreOf eng0) (1 <<< 25)
      (fun loc => !(loc == DATAFOLDER ++ cipherArgminLocation))).2.toOption.isSome
      = true) := by
  refine ⟨serverSetupAndWrite_error h1,
    ⟨(clientProcess_error h2).1, (clientProcess_error h2).2.1⟩,
    ⟨_, rfl⟩, by rfl⟩

/-- C1 amended witness: a server run whose every write fails aborts with
exit code 1 and the crypto-context diagnostic; a client run on an empty
store aborts with exit code 1 and its first diagnostic; the verifier still
returns normally. -/
theorem C1_amended_witness :
    (((⟨1, "Error writing serialization of the crypto context to cryptocontext.txt"⟩ : Diag).exitCode = 1 ∧
      (⟨1, "Error writing serialization of the crypto context to cryptocontext.txt"⟩ : Diag).msg ≠ "") ∧
     ((⟨1, "I cannot read serialized data from: " ++ DATAFOLDER ++ ccLocation⟩ : Diag).exitCode = 1 ∧
      (⟨1, "I cannot read serialized data from: " ++ DATAFOLDER ++ ccLocation⟩ : Diag).msg ≠ "") ∧
     (∃ pt, (serverVerification [] cc0 kp0 4).2 = Except.ok pt) ∧
     ((clientProcess (serverStoreOf eng0) (1 <<< 25)
       (fun loc => !(loc == DATAFOLDER ++ cipherArgminLocation))).2.toOption.isSome
       = true)) :=
  C1_amended_abort_behavior 64 4 15 50 60 25 true eng0 (fun _ => false)
    [] (1 <<< 25) (fun _ => true) [] cc0 kp0 4 _ _ _ _ rfl rfl

/-- C2 counterexample: the server transported a map holding the single base
8 (its refresh-key blob is in the store), but the client's reconstruction
does not unpack it: it aborts looking for base `2^18`, so no entry is ever
inserted for a base the server actually wrote. -/
theorem C2_counterexample :
    eng8.btKeyMap = [(8, ⟨8, 9⟩)] ∧
    (serverStoreOf eng8).get (btMapRkLocation 8) =
      some (Blob.refreshKeyB 8) ∧
    (clientProcess (serverStoreOf eng8) (1 <<< 25) (fun _ => true)).2 =
      Except.error ⟨1, "Could not deserialize the refresh key"⟩ :=
  ⟨rfl, rfl, rfl⟩

/-- C2 amended: the client assumes the fixed base list `{2^18}`: on any
successful run, the reconstructed `BTKeyMap` holds exactly one entry, keyed
by `2^18`, with the pair unpacked from that base's blobs, and exactly one
per-base load takes place. -/
theorem C2_amended_fixed_base_list (store : FileStore) (m : Nat)
    (w : String → Bool) (tr : List Event) (st2 : FileStore) (out : ClientOut)
    (h : clientProcess store m w = (tr, Except.ok (st2, out))) :
    ∃ rk kk,
      (store.get (btMapRkLocation (1 <<< 18))).bind Blob.asRefreshKey =
        some rk ∧
      (store.get (btMapKsLocation (1 <<< 18))).bind Blob.asSwitchKey =
        some kk ∧
      out.binCC.btKeyMap = [(1 <<< 18, ⟨rk, kk⟩)] ∧
      tr.filter Event.isBTLoadB =
        [Event.btKeyMapLoadSingle (1 <<< 18), Event.btKeyLoad] := by
  obtain ⟨ccSer, pk, mk, rotk, binSer, rk0, kk0, rk1, kk1, swk, ct,
    -, -, -, -, -, -, -, h8a, h8b, -, -, hout, htr, -⟩ := clientProcess_ok h
  subst hout
  subst htr
  exact ⟨rk1, kk1, h8a, h8b, rfl, rfl⟩

/-- C2 amended witness: the concrete demo run with engine `eng0`. -/
theorem C2_amended_witness :
    ∃ rk kk,
      ((serverStoreOf eng0).get (btMapRkLocation (1 <<< 18))).bind
        Blob.asRefreshKey = some rk ∧
      ((serverStoreOf eng0).get (btMapKsLocation (1 <<< 18))).bind
        Blob.asSwitchKey = some kk ∧
      ((clientProcess (serverStoreOf eng0) (1 <<< 25)
        (fun _ => true)).2.toOption.map
          (fun p => p.2.binCC.btKeyMap)).getD [] = [(1 <<< 18, ⟨rk, kk⟩)] ∧
      ((clientProcess (serverStoreOf eng0) (1 <<< 25) (fun _ => true)).1).filter
        Event.isBTLoadB =
        [Event.btKeyMapLoadSingle (1 <<< 18), Event.btKeyLoad] := by
  obtain ⟨rk, kk, ha, hb, hmap, htr⟩ :=
    C2_amended_fixed_base_list (serverStoreOf eng0) (1 <<< 25) (fun _ => true)
      _ _ _ rfl
  exact ⟨rk, kk, ha, hb, by rw [← hmap]; rfl, htr⟩

/-- C5 counterexample: with engine `eng5` the dedicated default blobs hold
the refresh/switching keys 10 and 11, but the default bundle the client
actually loads is (20, 21) — the pair from the base-`2^18` map blobs — and
the default-bundle load (`btKeyLoad`) happens AFTER the per-base map load,
not before. -/
theorem C5_counterexample :
    (serverStoreOf eng5).get (DATAFOLDER ++ btRkLocation) =
      some (Blob.refreshKeyB 10) ∧
    (serverStoreOf eng5).get (DATAFOLDER ++ btSwkLocation) =
      some (Blob.switchKeyB 11) ∧
    ((clientProcess (serverStoreOf eng5) (1 <<< 25)
      (fun _ => true)).2.toOption.map
        (fun p => (p.2.binCC.refreshKey, p.2.binCC.switchKey))) =
      some (20, 21) ∧
    ((20 : Nat) ≠ 10 ∧ (21 : Nat) ≠ 11) ∧
    ((clientProcess (serverStoreOf eng5) (1 <<< 25) (fun _ => true)).1).filter
      Event.isBTLoadB =
      [Event.btKeyMapLoadSingle (1 <<< 18), Event.btKeyLoad] :=
  ⟨rfl, rfl, rfl, by decide, rfl⟩

/-- C5 amended: the values loaded as the SecondaryContext's default
bootstrapping bundle are the ones deserialized from the per-base blobs of
base `2^18` (the last base of the client's fixed list), which overwrite the
values read from the dedicated default blobs; and the default-bundle load
takes place after the per-base map entry is loaded. -/
theorem C5_amended_default_bundle (store : FileStore) (m : Nat)
    (w : String → Bool) (tr : List Event) (st2 : FileStore) (out : ClientOut)
    (h : clientProcess store m w = (tr, Except.ok (st2, out))) :
    ∃ rk kk,
      (store.get (btMapRkLocation (1 <<< 18))).bind Blob.asRefreshKey =
        some rk ∧
      (store.get (btMapKsLocation (1 <<< 18))).bind Blob.asSwitchKey =
        some kk ∧
      out.binCC.refreshKey = rk ∧ out.binCC.switchKey = kk ∧
      tr.filter Event.isBTLoadB =
        [Event.btKeyMapLoadSingle (1 <<< 18), Event.btKeyLoad] := by
  obtain ⟨ccSer, pk, mk, rotk, binSer, rk0, kk0, rk1, kk1, swk, ct,
    -, -, -, -, -, -, -, h8a, h8b, -, -, hout, htr, -⟩ := clientProcess_ok h
  subst hout
  subst htr
  exact ⟨rk1, kk1, h8a, h8b, rfl, rfl, rfl⟩

/-- C5 amended witness: the concrete run with engine `eng5`, where the
loaded default bundle is exactly the per-base pair (20, 21). -/
theorem C5_amended_witness :
    ∃ rk kk,
      ((serverStoreOf eng5).get (btMapRkLocation (1 <<< 18))).bind
        Blob.asRefreshKey = some rk ∧
      ((serverStoreOf eng5).get (btMapKsLocation (1 <<< 18))).bind
        Blob.asSwitchKey = some kk ∧
      ((clientProcess (serverStoreOf eng5) (1 <<< 25)
        (fun _ => true)).2.toOption.map
          (fun p => (p.2.binCC.refreshKey, p.2.binCC.switchKey))).getD (0, 0) =
        (rk, kk) := by
  obtain ⟨rk, kk, ha, hb, hrk, hkk, -⟩ :=
    C5_amended_default_bundle (serverStoreOf eng5) (1 <<< 25) (fun _ => true)
      _ _ _ rfl
  exact ⟨rk, kk, ha, hb, by rw [← hrk, ← hkk]; rfl⟩

/-- C6: on a successful client run, the comparison precompute is invoked
with precision `modulus_LWE / (2 * beta)` (integer division, beta from the
reconstructed SecondaryContext) and it happens before the argmin
evaluation: the computation events of the trace are exactly the precompute
followed by the argmin. -/
theorem C6_precompute_precision (store : FileStore) (m : Nat)
    (w : String → Bool) (tr : List Event) (st2 : FileStore) (out : ClientOut)
    (h : clientProcess store m w = (tr, Except.ok (st2, out))) :
    tr.filter Event.isComputeB =
      [Event.precompute (m / (2 * out.binCC.beta)) 0 512 false,
       Event.evalMin] := by
  obtain ⟨ccSer, pk, mk, rotk, binSer, rk0, kk0, rk1, kk1, swk, ct,
    -, -, -, -, -, -, -, -, -, -, -, hout, htr, -⟩ := clientProcess_ok h
  subst hout
  subst htr
  rfl

/-- C6 witness: the concrete demo run with engine `eng0`
(beta = 128, modulus `2^25`, so pLWE = 131072). -/
theorem C6_precompute_precision_witness :
    ((clientProcess (serverStoreOf eng0) (1 <<< 25) (fun _ => true)).1).filter
      Event.isComputeB =
      [Event.precompute ((1 <<< 25) / (2 * 128)) 0 512 false,
       Event.evalMin] :=
  C6_precompute_precision (serverStoreOf eng0) (1 <<< 25) (fun _ => true)
    _ _ _ rfl

/-- C7: server verification always returns normally the plaintext obtained
by decrypting the unpacked result ciphertext with the passed-in (retained)
secret key, truncated to the given logical vector length; its trace
contains the decryption with that key and no serialization and no
encryption (no re-encryption or further transport). -/
theorem C7_verification_decrypt_truncate (store : FileStore) (cc : CCState)
    (kp : KeyPairM) (n : Nat) :
    ∃ pt, (serverVerification store cc kp n).2 = Except.ok pt ∧
      pt.value = (((store.get (DATAFOLDER ++ cipherArgminLocation)).bind
        Blob.asCt).getD ⟨[], 0⟩).payload.take n ∧
      Event.decryptEv kp.secretKey ∈ (serverVerification store cc kp n).1 ∧
      ((serverVerification store cc kp n).1).all
        (fun ev => !(ev.isSerializeB || ev.isEncryptB)) = true := by
  refine ⟨_, rfl, rfl, ?_, rfl⟩
  simp [serverVerification]

/-- C8: the client clears all four process-wide registries first: its trace
always begins with the four clear events (so no deserialization precedes
the clearing — the clear events themselves are not deserializations). -/
theorem C8_clear_before_unpack (store : FileStore) (m : Nat)
    (w : String → Bool) :
    (∃ rest, (clientProcess store m w).1 =
      [Event.clearEvalMultKeys, Event.clearEvalSumKeys,
       Event.clearEvalAutomorphismKeys, Event.releaseAllContexts] ++ rest) ∧
    ([Event.clearEvalMultKeys, Event.clearEvalSumKeys,
      Event.clearEvalAutomorphismKeys, Event.releaseAllContexts].all
      (fun ev => !ev.isDeserializeB)) = true := by
  refine ⟨?_, by decide⟩
  rcases hr : clientProcess store m w with ⟨tr, r⟩
  simp only [hr]
  cases r with
  | error e =>
      obtain ⟨-, -, rest, htr, -⟩ := clientProcess_error hr
      exact ⟨rest, htr⟩
  | ok p =>
      obtain ⟨st2, out⟩ := p
      obtain ⟨ccSer, pk, mk, rotk, binSer, rk0, kk0, rk1, kk1, swk, ct,
        -, -, -, -, -, -, -, -, -, -, -, -, htr, -⟩ := clientProcess_ok hr
      subst htr
      exact ⟨_, rfl⟩

/-- C4: across the whole run (server setup, client processing, server
verification), no serialization call ever receives the secret key: every
event of the combined trace fails the secret-key-serialization predicate,
whatever the engine produced and whatever writes fail. -/
theorem C4_secret_key_never_serialized (eng : Engine) (w : String → Bool) :
    ((mainRun eng w).1).all (fun ev => !ev.isSecretSerializeB) = true :=
  mainRun_nonsecret eng w

/-- C9: the end-to-end demo run — server setup on the vector
[1.0, 2.0, 3.0, 4.0], transport, client switching-based argmin, transport
back, server verification — produces the decrypted, length-truncated
one-hot vector [1.0, 0.0, 0.0, 0.0] marking the minimum element. -/
theorem C9_end_to_end :
    (mainRun eng0 (fun _ => true)).2 = Except.ok ⟨[1, 0, 0, 0]⟩ := rfl

end SchemeSwitchSerial